import Mathlib

/-!
Shallow embedding of `rise-ui/resources` (src/images.rs, src/lib.rs).

The image-decoding library (`image` crate) and the filesystem are external
collaborators: decoded images are modelled by the `DynamicImage` inductive, and
`image::open` / `image::load_from_memory` are oracle fields of `ImageLibrary`.
The webrender `RenderApi` is modelled by a key counter plus an explicit trace of
submitted resource-update commands (`Effect`).  A Rust panic (`unwrap` on a
missing render API, out-of-bounds slice index) is the `Outcome.panic` value.
Machine bytes are `Nat` with `% 256` at every `as u8` cast.
-/

namespace Resources

/-- Result of a call: normal return, recoverable `Err`, or a Rust panic. -/
inductive Outcome (ε α : Type) where
  | ok (a : α)
  | err (e : ε)
  | panic
deriving DecidableEq, Repr

/-- Subset of `webrender::api::ImageFormat` used by this crate. -/
inductive ImageFormat where
  | R8
  | BGRA8
  | RGBAF32
deriving DecidableEq, Repr

/-- `webrender::api::ImageDescriptor` as built by `ImageDescriptor::new`. -/
structure ImageDescriptor where
  width : Nat
  height : Nat
  format : ImageFormat
  is_opaque : Bool
  allow_mipmaps : Bool
deriving DecidableEq, Repr

/-- `webrender::api::ImageData::new(bytes)`: a raw CPU-side pixel buffer. -/
structure ImageData where
  bytes : List Nat
deriving DecidableEq, Repr

/-- `webrender::api::ImageKey`: opaque handle issued by `generate_image_key`. -/
structure ImageKey where
  id : Nat
deriving DecidableEq, Repr

/-- `ImageInfo` from src/images.rs: renderer handle plus descriptor. -/
structure ImageInfo where
  key : ImageKey
  descriptor : ImageDescriptor
deriving DecidableEq, Repr

/-- `ImageSource` from src/images.rs: the cache key.  Paths are strings. -/
inductive ImageSource where
  | AbsolutePath (path : String)
  | AssetPath (path : String)
  | Bundled (name : String)
deriving DecidableEq, Repr

/-- Raw pixel storage of one decoded image buffer of the `image` crate. -/
structure RawImage where
  width : Nat
  height : Nat
  pixels : List Nat
deriving DecidableEq, Repr

/-- `image::DynamicImage`: the decoded-image variants this crate can receive. -/
inductive DynamicImage where
  | ImageLuma8 (img : RawImage)
  | ImageLumaA8 (img : RawImage)
  | ImageRgb8 (img : RawImage)
  | ImageRgba8 (img : RawImage)
deriving DecidableEq, Repr

/-- `image.dimensions()`. -/
def DynamicImage.dimensions : DynamicImage → Nat × Nat
  | .ImageLuma8 i => (i.width, i.height)
  | .ImageLumaA8 i => (i.width, i.height)
  | .ImageRgb8 i => (i.width, i.height)
  | .ImageRgba8 i => (i.width, i.height)

/-- `image.raw_pixels()`: the flat byte buffer of the decoded image. -/
def DynamicImage.raw_pixels : DynamicImage → List Nat
  | .ImageLuma8 i => i.pixels
  | .ImageLumaA8 i => i.pixels
  | .ImageRgb8 i => i.pixels
  | .ImageRgba8 i => i.pixels

/-- `image::ImageError` as used here (`UnsupportedError` only). -/
inductive ImageError where
  | UnsupportedError (message : String)
deriving DecidableEq, Repr

/-- One byte of the premultiply formula: `((c * a + 128) / 255) as u8`. -/
def premulChannel (c a : Nat) : Nat :=
  ((c * a + 128) / 255) % 256

/-- `pub fn premultiply(data: &mut [u8])` from src/images.rs.  The source
iterates `data.chunks_mut(4)` and indexes `pixel[3]`, `pixel[2]`, `pixel[1]`,
`pixel[0]` in each chunk; on a trailing chunk shorter than 4 the index
`pixel[3]` is out of bounds and the function panics, modelled by `none`. -/
def premultiply : List Nat → Option (List Nat)
  | [] => some []
  | b :: g :: r :: a :: rest =>
    match premultiply rest with
    | none => none
    | some rest' =>
      some (premulChannel b a :: premulChannel g a :: premulChannel r a ::
            a % 256 :: rest')
  | _ => none

/-- `fn is_image_opaque(format, bytes)` from src/images.rs.  The `BGRA8` arm
scans `bytes[i * 4 + 3]` for `i` in `0..bytes.len() / 4` and is false exactly
when some scanned byte differs from 255 (the loop's early `break` does not
change the result).  The wildcard arm is `unreachable!()`, modelled `none`. -/
def is_image_opaque (format : ImageFormat) (bytes : List Nat) : Option Bool :=
  match format with
  | .BGRA8 =>
    some ((List.range (bytes.length / 4)).all fun i => bytes.getD (i * 4 + 3) 0 == 255)
  | .R8 => some true
  | _ => none

/-- The `match image { ... }` at the top of `prepare_image`: the chosen
`ImageFormat`, or `none` for the unsupported-layout arm. -/
def formatOf : DynamicImage → Option ImageFormat
  | .ImageRgba8 _ => some .BGRA8
  | .ImageLuma8 _ => some .R8
  | _ => none

/-- `fn prepare_image(image: DynamicImage)` from src/images.rs: pick the
format (erroring on unsupported layouts), premultiply in place when the format
is `BGRA8`, compute opacity, and build the descriptor with `allow_mipmaps`
fixed to `false`. -/
def prepare_image (image : DynamicImage) :
    Outcome ImageError (ImageData × ImageDescriptor) :=
  let image_dims := image.dimensions
  match formatOf image with
  | none => .err (.UnsupportedError "ImageFormat unsupported")
  | some format =>
    let bytes := image.raw_pixels
    match (if format = .BGRA8 then premultiply bytes else some bytes) with
    | none => .panic
    | some bytes =>
      match is_image_opaque format bytes with
      | none => .panic
      | some op =>
        .ok (ImageData.mk bytes,
             ImageDescriptor.mk image_dims.1 image_dims.2 format op false)

/-- `HashMap` lookup (`contains_key` / `Index`) modelled on an association
list: the value at the first matching key, if any. -/
def lookupA {α β : Type} [DecidableEq α] : List (α × β) → α → Option β
  | [], _ => none
  | (k', v') :: t, k => if k' = k then some v' else lookupA t k

/-- `HashMap::insert` modelled on an association list: replace the value at
the first matching key, or append the binding. -/
def insertA {α β : Type} [DecidableEq α] : List (α × β) → α → β → List (α × β)
  | [], k, v => [(k, v)]
  | (k', v') :: t, k, v =>
    if k' = k then (k, v) :: t else (k', v') :: insertA t k v

/-- `ImageLoader` from src/images.rs.  `render` is the optional `RenderApi`,
modelled as the next key id handed out by `generate_image_key`; the two
`HashMap`s are association lists (`bundled_images` is declared by the source
but never read or written, and is kept for fidelity). -/
structure ImageLoader where
  render : Option Nat
  assets_path : String
  bundled_images : List (ImageSource × ImageInfo)
  images : List (ImageSource × ImageInfo)
  texture_descriptors : List (Nat × ImageDescriptor)
deriving DecidableEq, Repr

/-- `ImageLoader::new()` via `Default`: no render API, empty path and maps. -/
def ImageLoader.new : ImageLoader :=
  ⟨none, "", [], [], []⟩

/-- The external `image` crate entry points used by src/images.rs, as oracles:
`image::open(path)` (filesystem read plus decode) and
`image::load_from_memory(bytes)`.  `Except.error` is any I/O or decode
failure, carrying its message. -/
structure ImageLibrary where
  openImage : String → Except String DynamicImage
  load_from_memory : List Nat → Except String DynamicImage

/-- Observable side effects of one registry call: a filesystem open attempt
(`image::open`), or a resource update submitted to the `RenderApi`
(`AddImage` / `UpdateImage`). -/
inductive Effect where
  | FsOpen (path : String)
  | AddImage (key : ImageKey) (descriptor : ImageDescriptor) (data : ImageData)
  | UpdateImage (key : ImageKey) (descriptor : ImageDescriptor) (texture_id : Nat)
deriving DecidableEq, Repr

/-- The `failure::Error` values produced by src/images.rs, kept structured:
the wrapping `bail!` messages become the two `From*` constructors, which
retain the formatted-in source and cause. -/
inductive LoadError where
  | IoOrDecode (message : String)
  | Conversion (e : ImageError)
  | BundledImageMissing (name : String)
  | FromSource (source : ImageSource) (inner : LoadError)
  | FromRawData (inner : LoadError)
deriving DecidableEq, Repr

/-- `ImageLoader::render_api`: `self.render.as_ref().unwrap()` — `none` means
the caller panics. -/
def ImageLoader.render_api (self : ImageLoader) : Option Nat :=
  self.render

/-- `ImageLoader::create_image_resource`: generate a fresh key, submit one
`AddImage` resource update, return the new `ImageInfo`.  Both `render_api`
calls `unwrap` the render API, so a missing API is a panic. -/
def create_image_resource (self : ImageLoader) (data : ImageData)
    (descriptor : ImageDescriptor) :
    Outcome LoadError ImageInfo × ImageLoader × List Effect :=
  match self.render_api with
  | none => (.panic, self, [])
  | some k =>
    let key : ImageKey := ⟨k⟩
    (.ok ⟨key, descriptor⟩, { self with render := some (k + 1) },
     [Effect.AddImage key descriptor data])

/-- `ImageLoader::put_image`: register the resource, insert it into
`self.images`, and return `&self.images[source]` (which
`lookupA_insertA_self` below identifies with the inserted `ImageInfo`). -/
def put_image (self : ImageLoader) (source : ImageSource) (data : ImageData)
    (descriptor : ImageDescriptor) :
    Outcome LoadError ImageInfo × ImageLoader × List Effect :=
  match create_image_resource self data descriptor with
  | (.ok image_info, self', effs) =>
    (.ok image_info,
     { self' with images := insertA self'.images source image_info }, effs)
  | other => other

/-- The shared tail of the two path arms of `get_image_internal`:
`prepare_image(image::open(&path)?)?` followed by `put_image`. -/
def load_path (lib : ImageLibrary) (self : ImageLoader) (source : ImageSource)
    (path : String) :
    Outcome LoadError ImageInfo × ImageLoader × List Effect :=
  match lib.openImage path with
  | .error e => (.err (.IoOrDecode e), self, [Effect.FsOpen path])
  | .ok img =>
    match prepare_image img with
    | .err e => (.err (.Conversion e), self, [Effect.FsOpen path])
    | .panic => (.panic, self, [Effect.FsOpen path])
    | .ok (data, descriptor) =>
      match put_image self source data descriptor with
      | (r, self', effs) => (r, self', Effect.FsOpen path :: effs)

/-- `ImageLoader::get_image_internal`: cached entries are returned as-is; a
miss dispatches on the source kind — `AbsolutePath` opens the path itself,
`AssetPath` opens the assets root joined with the relative path, and
`Bundled` returns `BundledImageMissingError` at once. -/
def get_image_internal (lib : ImageLibrary) (self : ImageLoader)
    (source : ImageSource) :
    Outcome LoadError ImageInfo × ImageLoader × List Effect :=
  match lookupA self.images source with
  | some info => (.ok info, self, [])
  | none =>
    match source with
    | .AbsolutePath path => load_path lib self source path
    | .AssetPath relative_path =>
      load_path lib self source (self.assets_path ++ "/" ++ relative_path)
    | .Bundled name => (.err (.BundledImageMissing name), self, [])

/-- `ImageLoader::get_image`: delegate to `get_image_internal` and wrap any
`Err` with the `"Failed to load image from source {:?}. {}"` context. -/
def get_image (lib : ImageLibrary) (self : ImageLoader) (source : ImageSource) :
    Outcome LoadError ImageInfo × ImageLoader × List Effect :=
  match get_image_internal lib self source with
  | (.err e, self', effs) => (.err (.FromSource source e), self', effs)
  | other => other

/-- `ImageLoader::load_image_internal`: decode the raw bytes in memory,
convert, register with the renderer, and insert under `Bundled(name)` into
`self.images`. -/
def load_image_internal (lib : ImageLibrary) (self : ImageLoader)
    (name : String) (data : List Nat) :
    Outcome LoadError Unit × ImageLoader × List Effect :=
  match lib.load_from_memory data with
  | .error e => (.err (.IoOrDecode e), self, [])
  | .ok img =>
    match prepare_image img with
    | .err e => (.err (.Conversion e), self, [])
    | .panic => (.panic, self, [])
    | .ok (d, descriptor) =>
      match create_image_resource self d descriptor with
      | (.ok image_info, self', effs) =>
        (.ok (),
         { self' with
           images := insertA self'.images (.Bundled name) image_info }, effs)
      | (.err e, self', effs) => (.err e, self', effs)
      | (.panic, self', effs) => (.panic, self', effs)

/-- `ImageLoader::load_image`: delegate to `load_image_internal` and wrap any
`Err` with the `"Failed to load image from raw data {}"` context. -/
def load_image (lib : ImageLibrary) (self : ImageLoader) (name : String)
    (data : List Nat) :
    Outcome LoadError Unit × ImageLoader × List Effect :=
  match load_image_internal lib self name data with
  | (.err e, self', effs) => (.err (.FromRawData e), self', effs)
  | other => other

/-- `ImageLoader::update_texture`: submit one `UpdateImage` resource update
(panicking if the render API is absent) and record the descriptor under the
external texture id. -/
def update_texture (self : ImageLoader) (key : ImageKey)
    (descriptor : ImageDescriptor) (texture_id : Nat) :
    Outcome LoadError Unit × ImageLoader × List Effect :=
  match self.render_api with
  | none => (.panic, self, [])
  | some _ =>
    (.ok (),
     { self with
       texture_descriptors := insertA self.texture_descriptors texture_id descriptor },
     [Effect.UpdateImage key descriptor texture_id])

/-- Buffer-length invariant the `image` crate guarantees for each decoded
variant (bytes per pixel times pixel count). -/
def image_wf : DynamicImage → Prop
  | .ImageLuma8 i => i.pixels.length = i.width * i.height
  | .ImageLumaA8 i => i.pixels.length = 2 * (i.width * i.height)
  | .ImageRgb8 i => i.pixels.length = 3 * (i.width * i.height)
  | .ImageRgba8 i => i.pixels.length = 4 * (i.width * i.height)

/-- Concrete oracle whose open and in-memory decode both fail. -/
def lib0 : ImageLibrary :=
  ⟨fun _ => .error "io", fun _ => .error "decode"⟩

/-- A concrete decoded 1x1 grayscale image. -/
def lumaImage : DynamicImage :=
  .ImageLuma8 ⟨1, 1, [7]⟩

/-- The descriptor `prepare_image` derives for `lumaImage`. -/
def descL : ImageDescriptor :=
  ⟨1, 1, .R8, true, false⟩

/-- Concrete oracle that decodes in-memory bytes to `lumaImage` but has no
filesystem. -/
def lib1 : ImageLibrary :=
  ⟨fun _ => .error "io", fun _ => .ok lumaImage⟩

/-- Concrete oracle resolving every open and every in-memory decode to
`lumaImage`. -/
def lib2 : ImageLibrary :=
  ⟨fun _ => .ok lumaImage, fun _ => .ok lumaImage⟩

/-- A concrete descriptor for cache fixtures. -/
def desc0 : ImageDescriptor :=
  ⟨8, 8, .BGRA8, true, false⟩

/-- A concrete cached `ImageInfo`. -/
def info0 : ImageInfo :=
  ⟨⟨5⟩, desc0⟩

/-- A loader whose cache already holds `info0` under `Bundled "w"`. -/
def loader1 : ImageLoader :=
  ⟨some 9, "/assets", [], [(.Bundled "w", info0)], []⟩

/-- A loader with a configured render API and empty caches. -/
def loader2 : ImageLoader :=
  ⟨some 0, "", [], [], []⟩

/-- A concrete decoded 1x1 RGBA pixel (r, g, b, a) = (200, 100, 50, 128). -/
def rgbaSample : RawImage :=
  ⟨1, 1, [200, 100, 50, 128]⟩

/-- Inserting then looking up the same key yields the inserted value
(`&self.images[source]` right after `insert` is the inserted `ImageInfo`). -/
theorem lookupA_insertA_self {α β : Type} [DecidableEq α]
    (l : List (α × β)) (k : α) (v : β) :
    lookupA (insertA l k v) k = some v := by
  induction l with
  | nil => simp [insertA, lookupA]
  | cons hd t ih =>
    obtain ⟨k', v'⟩ := hd
    by_cases hk : k' = k
    · simp [insertA, hk, lookupA]
    · simp [insertA, hk, lookupA, ih]

/-- Skipping one 4-byte chunk shifts `getD` indices by 4. -/
theorem getD_cons4 (p q r s : Nat) (l : List Nat) (n : Nat) :
    (p :: q :: r :: s :: l).getD (n + 4) 0 = l.getD n 0 := by
  simp [show n + 4 = n + 1 + 1 + 1 + 1 from by ring, List.getD_cons_succ]

/-- On a buffer of length `4 * n`, `premultiply` succeeds, preserves the
length, and rewrites each 4-byte chunk by the source formula: bytes 0, 1, 2
become `premulChannel` of themselves with byte 3, and byte 3 becomes itself
cast through `as u8`. -/
theorem premultiply_spec : ∀ (n : Nat) (bytes : List Nat),
    bytes.length = 4 * n →
    ∃ out, premultiply bytes = some out ∧ out.length = bytes.length ∧
      ∀ i, 4 * i + 3 < bytes.length →
        out.getD (4 * i) 0 =
          premulChannel (bytes.getD (4 * i) 0) (bytes.getD (4 * i + 3) 0) ∧
        out.getD (4 * i + 1) 0 =
          premulChannel (bytes.getD (4 * i + 1) 0) (bytes.getD (4 * i + 3) 0) ∧
        out.getD (4 * i + 2) 0 =
          premulChannel (bytes.getD (4 * i + 2) 0) (bytes.getD (4 * i + 3) 0) ∧
        out.getD (4 * i + 3) 0 = bytes.getD (4 * i + 3) 0 % 256
  | 0, bytes, h => by
    have hb : bytes = [] := List.eq_nil_of_length_eq_zero (by omega)
    subst hb
    exact ⟨[], rfl, rfl, by intro i hi; simp at hi⟩
  | n + 1, bytes, h => by
    cases bytes with
    | nil => simp at h
    | cons b t1 =>
      cases t1 with
      | nil => simp at h; omega
      | cons g t2 =>
        cases t2 with
        | nil => simp at h; omega
        | cons r t3 =>
          cases t3 with
          | nil => simp at h; omega
          | cons a rest =>
            have hr : rest.length = 4 * n := by
              simp [List.length_cons] at h; omega
            obtain ⟨out, hout, hlen, hpt⟩ := premultiply_spec n rest hr
            refine ⟨premulChannel b a :: premulChannel g a ::
                premulChannel r a :: a % 256 :: out, ?_, ?_, ?_⟩
            · simp [premultiply, hout]
            · simp [List.length_cons, hlen]
            · intro i hi
              match i with
              | 0 => simp [List.getD_cons_succ, List.getD_cons_zero]
              | i + 1 =>
                have hi' : 4 * i + 3 < rest.length := by
                  simp [List.length_cons] at hi; omega
                obtain ⟨h0, h1, h2, h3⟩ := hpt i hi'
                refine ⟨?_, ?_, ?_, ?_⟩
                · rw [show 4 * (i + 1) = 4 * i + 4 from by ring,
                      getD_cons4, getD_cons4,
                      show 4 * i + 4 + 3 = 4 * i + 3 + 4 from by ring,
                      getD_cons4, h0]
                · rw [show 4 * (i + 1) + 1 = 4 * i + 1 + 4 from by ring,
                      getD_cons4, getD_cons4,
                      show 4 * (i + 1) + 3 = 4 * i + 3 + 4 from by ring,
                      getD_cons4, h1]
                · rw [show 4 * (i + 1) + 2 = 4 * i + 2 + 4 from by ring,
                      getD_cons4, getD_cons4,
                      show 4 * (i + 1) + 3 = 4 * i + 3 + 4 from by ring,
                      getD_cons4, h2]
                · rw [show 4 * (i + 1) + 3 = 4 * i + 3 + 4 from by ring,
                      getD_cons4, getD_cons4, h3]

/-- On a buffer whose length is not a multiple of 4, the trailing chunk is
shorter than 4 and `pixel[3]` is out of bounds: `premultiply` panics. -/
theorem premultiply_none (bytes : List Nat) (h : bytes.length % 4 ≠ 0) :
    premultiply bytes = none := by
  match bytes with
  | [] => simp at h
  | [b] => rfl
  | [b, g] => rfl
  | [b, g, r] => rfl
  | b :: g :: r :: a :: rest =>
    have ih : premultiply rest = none := by
      apply premultiply_none
      simp [List.length_cons] at h
      omega
    simp [premultiply, ih]
termination_by bytes.length

/-- For genuine bytes the `as u8` cast in `premulChannel` is the identity. -/
theorem premulChannel_eq {c a : Nat} (hc : c < 256) (ha : a < 256) :
    premulChannel c a = (c * a + 128) / 255 := by
  unfold premulChannel
  apply Nat.mod_eq_of_lt
  have h1 : c * a ≤ 255 * 255 := Nat.mul_le_mul (by omega) (by omega)
  exact Nat.div_lt_of_lt_mul (by omega)

/-- In-bounds `getD` of a byte list stays below 256. -/
theorem getD_lt_256 {l : List Nat} (hb : ∀ b ∈ l, b < 256) {k : Nat}
    (hk : k < l.length) : l.getD k 0 < 256 := by
  rw [List.getD_eq_getElem l 0 hk]
  exact hb _ (List.getElem_mem hk)

/-- The opacity scan of the `BGRA8` arm, as a pointwise statement. -/
theorem is_opaque_scan_iff (bytes : List Nat) :
    (((List.range (bytes.length / 4)).all
        fun i => bytes.getD (i * 4 + 3) 0 == 255) = true) ↔
      ∀ i, i < bytes.length / 4 → bytes.getD (i * 4 + 3) 0 = 255 := by
  simp [List.all_eq_true, List.mem_range]

/-- C2.  Premultiplication correctness: on every decoded 8-bit RGBA image the
conversion replaces each pixel's three color channels c by
(c * alpha + 128) / 255 with truncating division, leaves every alpha byte
unchanged, and grayscale (single-channel) images are passed through with no
premultiplication. -/
theorem claim2_premultiplication (img : RawImage)
    (h4 : img.pixels.length % 4 = 0) (hb : ∀ b ∈ img.pixels, b < 256) :
    (∃ out desc,
      prepare_image (.ImageRgba8 img) = .ok (ImageData.mk out, desc) ∧
      out.length = img.pixels.length ∧
      ∀ i, 4 * i + 3 < img.pixels.length →
        out.getD (4 * i) 0 =
          (img.pixels.getD (4 * i) 0 * img.pixels.getD (4 * i + 3) 0 + 128) / 255 ∧
        out.getD (4 * i + 1) 0 =
          (img.pixels.getD (4 * i + 1) 0 * img.pixels.getD (4 * i + 3) 0 + 128) / 255 ∧
        out.getD (4 * i + 2) 0 =
          (img.pixels.getD (4 * i + 2) 0 * img.pixels.getD (4 * i + 3) 0 + 128) / 255 ∧
        out.getD (4 * i + 3) 0 = img.pixels.getD (4 * i + 3) 0) ∧
    ∀ g : RawImage, prepare_image (.ImageLuma8 g) =
      .ok (ImageData.mk g.pixels,
           ImageDescriptor.mk g.width g.height .R8 true false) := by
  obtain ⟨out, hout, hlen, hpt⟩ :=
    premultiply_spec (img.pixels.length / 4) img.pixels (by omega)
  constructor
  · refine ⟨out,
      ImageDescriptor.mk img.width img.height .BGRA8
        ((List.range (out.length / 4)).all
          fun j => out.getD (j * 4 + 3) 0 == 255) false, ?_, hlen, ?_⟩
    · simp [prepare_image, formatOf, DynamicImage.raw_pixels,
            DynamicImage.dimensions, hout, is_image_opaque]
    · intro i hi
      obtain ⟨h0, h1, h2, h3⟩ := hpt i hi
      have ha : img.pixels.getD (4 * i + 3) 0 < 256 := getD_lt_256 hb (by omega)
      have hc0 : img.pixels.getD (4 * i) 0 < 256 := getD_lt_256 hb (by omega)
      have hc1 : img.pixels.getD (4 * i + 1) 0 < 256 := getD_lt_256 hb (by omega)
      have hc2 : img.pixels.getD (4 * i + 2) 0 < 256 := getD_lt_256 hb (by omega)
      exact ⟨by rw [h0, premulChannel_eq hc0 ha],
             by rw [h1, premulChannel_eq hc1 ha],
             by rw [h2, premulChannel_eq hc2 ha],
             by rw [h3, Nat.mod_eq_of_lt ha]⟩
  · intro g
    rfl

/-- C2 witness: the spec's worked example, the pixel (200, 100, 50, 128). -/
theorem claim2_witness :
    (∃ out desc,
      prepare_image (.ImageRgba8 rgbaSample) = .ok (ImageData.mk out, desc) ∧
      out.length = rgbaSample.pixels.length ∧
      ∀ i, 4 * i + 3 < rgbaSample.pixels.length →
        out.getD (4 * i) 0 =
          (rgbaSample.pixels.getD (4 * i) 0 *
            rgbaSample.pixels.getD (4 * i + 3) 0 + 128) / 255 ∧
        out.getD (4 * i + 1) 0 =
          (rgbaSample.pixels.getD (4 * i + 1) 0 *
            rgbaSample.pixels.getD (4 * i + 3) 0 + 128) / 255 ∧
        out.getD (4 * i + 2) 0 =
          (rgbaSample.pixels.getD (4 * i + 2) 0 *
            rgbaSample.pixels.getD (4 * i + 3) 0 + 128) / 255 ∧
        out.getD (4 * i + 3) 0 = rgbaSample.pixels.getD (4 * i + 3) 0) ∧
    ∀ g : RawImage, prepare_image (.ImageLuma8 g) =
      .ok (ImageData.mk g.pixels,
           ImageDescriptor.mk g.width g.height .R8 true false) :=
  claim2_premultiplication rgbaSample (by decide) (by decide)

/-- C3 (code evaluated at the failing input).  The claim says the upload
buffer is handed over in B,G,R,A byte order, R and B swapped relative to the
decoded R,G,B,A input.  The code never swaps: for the fully opaque decoded
pixel (R, G, B, A) = (10, 20, 30, 255), premultiplication by alpha 255 is the
identity, so a reordering conversion would have to output [30, 20, 10, 255];
`prepare_image` outputs the bytes unchanged as [10, 20, 30, 255] while
tagging the buffer `BGRA8`. -/
theorem claim3_no_reordering :
    prepare_image (.ImageRgba8 ⟨1, 1, [10, 20, 30, 255]⟩) =
      .ok (ImageData.mk [10, 20, 30, 255],
           ImageDescriptor.mk 1 1 .BGRA8 true false) ∧
    ImageData.mk [10, 20, 30, 255] ≠ ImageData.mk [30, 20, 10, 255] := by
  exact ⟨by decide, by decide⟩

/-- C4.  Opacity detection: for a 4-channel image the descriptor reports
opacity exactly when every pixel's alpha byte is 255, and every grayscale
image is reported opaque. -/
theorem claim4_opacity (img : RawImage)
    (h4 : img.pixels.length % 4 = 0) (hb : ∀ b ∈ img.pixels, b < 256) :
    (∃ out desc, prepare_image (.ImageRgba8 img) = .ok (out, desc) ∧
      ( ImageDescriptor.is_opaque desc = true ↔
        ∀ i, 4 * i + 3 < img.pixels.length →
          img.pixels.getD (4 * i + 3) 0 = 255)) ∧
    ∀ g : RawImage, ∃ out desc,
      prepare_image (.ImageLuma8 g) = .ok (out, desc) ∧
      ImageDescriptor.is_opaque desc = true := by
  obtain ⟨out, hout, hlen, hpt⟩ :=
    premultiply_spec (img.pixels.length / 4) img.pixels (by omega)
  constructor
  · refine ⟨ImageData.mk out,
      ImageDescriptor.mk img.width img.height .BGRA8
        ((List.range (out.length / 4)).all
          fun j => out.getD (j * 4 + 3) 0 == 255) false, ?_, ?_⟩
    · simp [prepare_image, formatOf, DynamicImage.raw_pixels,
            DynamicImage.dimensions, hout, is_image_opaque]
    · show (((List.range (out.length / 4)).all
          fun j => out.getD (j * 4 + 3) 0 == 255) = true) ↔ _
      rw [is_opaque_scan_iff]
      constructor
      · intro hall i hi
        obtain ⟨_, _, _, h3⟩ := hpt i hi
        have ha : img.pixels.getD (4 * i + 3) 0 < 256 := getD_lt_256 hb (by omega)
        have := hall i (by omega)
        rw [show i * 4 + 3 = 4 * i + 3 from by ring, h3,
            Nat.mod_eq_of_lt ha] at this
        exact this
      · intro hall i hi
        obtain ⟨_, _, _, h3⟩ := hpt i (by omega)
        have ha : img.pixels.getD (4 * i + 3) 0 < 256 := getD_lt_256 hb (by omega)
        rw [show i * 4 + 3 = 4 * i + 3 from by ring, h3, Nat.mod_eq_of_lt ha]
        exact hall i (by omega)
  · intro g
    exact ⟨ImageData.mk g.pixels,
           ImageDescriptor.mk g.width g.height .R8 true false, rfl, rfl⟩

/-- C4 witness: the pixel (200, 100, 50, 128), whose alpha is below 255. -/
theorem claim4_witness :
    (∃ out desc, prepare_image (.ImageRgba8 rgbaSample) = .ok (out, desc) ∧
      ( ImageDescriptor.is_opaque desc = true ↔
        ∀ i, 4 * i + 3 < rgbaSample.pixels.length →
          rgbaSample.pixels.getD (4 * i + 3) 0 = 255)) ∧
    ∀ g : RawImage, ∃ out desc,
      prepare_image (.ImageLuma8 g) = .ok (out, desc) ∧
      ImageDescriptor.is_opaque desc = true :=
  claim4_opacity rgbaSample (by decide) (by decide)

/-- C8.  Unsupported layout rejection: conversion fails exactly on decoded
layouts other than 8-bit RGBA and 8-bit luma, succeeds on those two, and the
failure is the unsupported-format error. -/
theorem claim8_unsupported_layout (img : DynamicImage) (hwf : image_wf img) :
    ((∃ e, prepare_image img = .err e) ↔
      ((∀ i, img ≠ .ImageRgba8 i) ∧ ∀ i, img ≠ .ImageLuma8 i)) ∧
    ((∃ v, prepare_image img = .ok v) ↔
      ((∃ i, img = .ImageRgba8 i) ∨ ∃ i, img = .ImageLuma8 i)) ∧
    ∀ e, prepare_image img = .err e →
      e = .UnsupportedError "ImageFormat unsupported" := by
  cases img with
  | ImageLuma8 i =>
    have hO : prepare_image (.ImageLuma8 i) =
        .ok (ImageData.mk i.pixels,
             ImageDescriptor.mk i.width i.height .R8 true false) := rfl
    refine ⟨?_, ?_, ?_⟩
    · constructor
      · rintro ⟨e, he⟩; rw [hO] at he; cases he
      · rintro ⟨_, hB⟩; exact absurd rfl (hB i)
    · constructor
      · intro _; exact Or.inr ⟨i, rfl⟩
      · intro _; exact ⟨_, hO⟩
    · intro e he; rw [hO] at he; cases he
  | ImageLumaA8 i =>
    have hE : prepare_image (.ImageLumaA8 i) =
        .err (.UnsupportedError "ImageFormat unsupported") := rfl
    refine ⟨?_, ?_, ?_⟩
    · simp [hE]
    · simp [hE]
    · intro e he; rw [hE] at he; injection he with h; exact h.symm
  | ImageRgb8 i =>
    have hE : prepare_image (.ImageRgb8 i) =
        .err (.UnsupportedError "ImageFormat unsupported") := rfl
    refine ⟨?_, ?_, ?_⟩
    · simp [hE]
    · simp [hE]
    · intro e he; rw [hE] at he; injection he with h; exact h.symm
  | ImageRgba8 i =>
    obtain ⟨out, hout, hlen, _⟩ :=
      premultiply_spec (i.width * i.height) i.pixels hwf
    have hO : prepare_image (.ImageRgba8 i) =
        .ok (ImageData.mk out,
          ImageDescriptor.mk i.width i.height .BGRA8
            ((List.range (out.length / 4)).all
              fun j => out.getD (j * 4 + 3) 0 == 255) false) := by
      simp [prepare_image, formatOf, DynamicImage.raw_pixels,
            DynamicImage.dimensions, hout, is_image_opaque]
    refine ⟨?_, ?_, ?_⟩
    · constructor
      · rintro ⟨e, he⟩; rw [hO] at he; cases he
      · rintro ⟨hA, _⟩; exact absurd rfl (hA i)
    · constructor
      · intro _; exact Or.inl ⟨i, rfl⟩
      · intro _; exact ⟨_, hO⟩
    · intro e he; rw [hO] at he; cases he

/-- C8 witness: a 3-channel (RGB) decoded image is rejected. -/
theorem claim8_witness :
    ((∃ e, prepare_image (.ImageRgb8 ⟨1, 1, [1, 2, 3]⟩) = .err e) ↔
      ((∀ i, DynamicImage.ImageRgb8 ⟨1, 1, [1, 2, 3]⟩ ≠ .ImageRgba8 i) ∧
        ∀ i, DynamicImage.ImageRgb8 ⟨1, 1, [1, 2, 3]⟩ ≠ .ImageLuma8 i)) ∧
    ((∃ v, prepare_image (.ImageRgb8 ⟨1, 1, [1, 2, 3]⟩) = .ok v) ↔
      ((∃ i, DynamicImage.ImageRgb8 ⟨1, 1, [1, 2, 3]⟩ = .ImageRgba8 i) ∨
        ∃ i, DynamicImage.ImageRgb8 ⟨1, 1, [1, 2, 3]⟩ = .ImageLuma8 i)) ∧
    ∀ e, prepare_image (.ImageRgb8 ⟨1, 1, [1, 2, 3]⟩) = .err e →
      e = .UnsupportedError "ImageFormat unsupported" :=
  claim8_unsupported_layout (.ImageRgb8 ⟨1, 1, [1, 2, 3]⟩) (by rfl)

/-- C10.  Totality of the public premultiply: it succeeds on every buffer
whose length is a multiple of 4 and panics (out-of-bounds chunk index,
modelled `none`) on every buffer whose length is not. -/
theorem claim10_premultiply_totality (data : List Nat) :
    (data.length % 4 = 0 →
      ∃ out, premultiply data = some out ∧ out.length = data.length) ∧
    (data.length % 4 ≠ 0 → premultiply data = none) := by
  constructor
  · intro h
    obtain ⟨out, hout, hlen, _⟩ :=
      premultiply_spec (data.length / 4) data (by omega)
    exact ⟨out, hout, hlen⟩
  · exact premultiply_none data

/-- C10 witness: a whole-chunk buffer succeeds, a 3-byte buffer panics. -/
theorem claim10_witness :
    (∃ out, premultiply [1, 2, 3, 4] = some out ∧ out.length = 4) ∧
    premultiply [1, 2, 3] = none :=
  ⟨(claim10_premultiply_totality [1, 2, 3, 4]).1 (by decide),
   (claim10_premultiply_totality [1, 2, 3]).2 (by decide)⟩

/-- C1.  Cache idempotence: a cached source is returned as-is — no open, no
conversion, no renderer command, no state change — so the immediately
following call returns the identical entry and also emits nothing. -/
theorem claim1_cache_idempotence (lib : ImageLibrary) (self : ImageLoader)
    (source : ImageSource) (info : ImageInfo)
    (h : lookupA self.images source = some info) :
    get_image lib self source = (.ok info, self, []) ∧
    get_image lib (get_image lib self source).2.1 source =
      (.ok info, self, []) := by
  have h1 : get_image lib self source = (.ok info, self, []) := by
    unfold get_image get_image_internal
    rw [h]
  exact ⟨h1, by rw [h1]; exact h1⟩

/-- C1 witness: a loader already holding `info0` under `Bundled "w"`. -/
theorem claim1_witness :
    get_image lib0 loader1 (.Bundled "w") = (.ok info0, loader1, []) ∧
    get_image lib0 (get_image lib0 loader1 (.Bundled "w")).2.1 (.Bundled "w") =
      (.ok info0, loader1, []) :=
  claim1_cache_idempotence lib0 loader1 (.Bundled "w") info0 (by rfl)

/-- `put_image` either succeeds or panics on a missing render API; it never
returns `Err`, and the panic happens before any insertion. -/
theorem put_image_result (self : ImageLoader) (source : ImageSource)
    (data : ImageData) (descriptor : ImageDescriptor) :
    (∃ info self' effs,
      put_image self source data descriptor = (.ok info, self', effs)) ∨
    put_image self source data descriptor = (.panic, self, []) := by
  unfold put_image create_image_resource ImageLoader.render_api
  cases hr : self.render with
  | none => right; rfl
  | some k => left; exact ⟨_, _, _, rfl⟩

/-- `load_path` leaves the loader untouched whenever it returns `Err`. -/
theorem load_path_err_state (lib : ImageLibrary) (self : ImageLoader)
    (source : ImageSource) (path : String) (e : LoadError)
    (self' : ImageLoader) (effs : List Effect)
    (h : load_path lib self source path = (.err e, self', effs)) :
    self' = self := by
  unfold load_path at h
  cases hopen : lib.openImage path with
  | error msg =>
    simp only [hopen] at h
    simp at h
    exact h.2.1.symm
  | ok img =>
    simp only [hopen] at h
    cases hprep : prepare_image img with
    | err e0 =>
      simp only [hprep] at h
      simp at h
      exact h.2.1.symm
    | panic =>
      simp only [hprep] at h
      simp at h
    | ok v =>
      obtain ⟨data, descriptor⟩ := v
      simp only [hprep] at h
      rcases put_image_result self source data descriptor with
        ⟨info, s2, effs2, hput⟩ | hput
      · simp only [hput] at h
        simp at h
      · simp only [hput] at h
        simp at h

/-- `get_image_internal` leaves the loader untouched whenever it returns
`Err` (every error exit precedes `put_image`). -/
theorem get_image_internal_err_state (lib : ImageLibrary) (self : ImageLoader)
    (source : ImageSource) (e : LoadError) (self' : ImageLoader)
    (effs : List Effect)
    (h : get_image_internal lib self source = (.err e, self', effs)) :
    self' = self := by
  unfold get_image_internal at h
  cases hl : lookupA self.images source with
  | some info =>
    rw [hl] at h
    simp at h
  | none =>
    rw [hl] at h
    cases source with
    | AbsolutePath p => exact load_path_err_state lib self _ p e self' effs h
    | AssetPath rp => exact load_path_err_state lib self _ _ e self' effs h
    | Bundled nm =>
      simp at h
      exact h.2.1.symm

/-- C5.  Failure atomicity: whenever `get_image` returns `Err`, the loader
state (both the source cache and the texture-descriptor table) is exactly the
pre-call state, and the error wraps the cause with the offending source. -/
theorem claim5_failure_atomicity (lib : ImageLibrary) (self : ImageLoader)
    (source : ImageSource) (e : LoadError) (self' : ImageLoader)
    (effs : List Effect)
    (h : get_image lib self source = (.err e, self', effs)) :
    self' = self ∧ ∃ inner, e = .FromSource source inner := by
  unfold get_image at h
  rcases hgi : get_image_internal lib self source with ⟨r, s0, effs0⟩
  rw [hgi] at h
  cases r with
  | ok a => simp at h
  | panic => simp at h
  | err e0 =>
    simp at h
    obtain ⟨he, hs, _⟩ := h
    have hstate : s0 = self :=
      get_image_internal_err_state lib self source e0 s0 effs0 hgi
    exact ⟨hs ▸ hstate, e0, he.symm⟩

/-- C5 witness: an uncached absolute path whose open fails with "io". -/
theorem claim5_witness :
    ImageLoader.new = ImageLoader.new ∧
    ∃ inner,
      LoadError.FromSource (.AbsolutePath "/a") (.IoOrDecode "io") =
        .FromSource (.AbsolutePath "/a") inner :=
  claim5_failure_atomicity lib0 ImageLoader.new (.AbsolutePath "/a")
    (.FromSource (.AbsolutePath "/a") (.IoOrDecode "io")) ImageLoader.new
    [Effect.FsOpen "/a"] (by rfl)

/-- C6.  Bundled lookup without registration: an uncached `Bundled x` returns
at once with the missing-bundled error naming `x`, wrapped with the source
context; no filesystem open, no decode, no renderer command, no state
change. -/
theorem claim6_bundled_missing (lib : ImageLibrary) (self : ImageLoader)
    (x : String) (h : lookupA self.images (.Bundled x) = none) :
    get_image lib self (.Bundled x) =
      (.err (.FromSource (.Bundled x) (.BundledImageMissing x)), self, []) := by
  unfold get_image get_image_internal
  rw [h]

/-- C6 witness: a fresh loader and the name "x". -/
theorem claim6_witness :
    get_image lib0 ImageLoader.new (.Bundled "x") =
      (.err (.FromSource (.Bundled "x") (.BundledImageMissing "x")),
       ImageLoader.new, []) :=
  claim6_bundled_missing lib0 ImageLoader.new "x" (by rfl)

/-- C7.  Registration/lookup round trip: after a successful
`load_image(name, bytes)` the entry sits in the cache under `Bundled name`
with the freshly generated key, the renderer got exactly one add command, a
following `get_image(Bundled name)` returns that entry from the cache with no
further decode or renderer command, and a second `load_image` with the same
name replaces the mapping with a new entry under the next key. -/
theorem claim7_bundled_round_trip (lib : ImageLibrary) (self : ImageLoader)
    (name : String) (data data2 : List Nat) (img img2 : DynamicImage)
    (d d2 : ImageData) (desc desc2 : ImageDescriptor) (k : Nat)
    (hrender : self.render = some k)
    (hdec : lib.load_from_memory data = .ok img)
    (hprep : prepare_image img = .ok (d, desc))
    (hdec2 : lib.load_from_memory data2 = .ok img2)
    (hprep2 : prepare_image img2 = .ok (d2, desc2)) :
    ∃ s1, load_image lib self name data =
        (.ok (), s1, [Effect.AddImage ⟨k⟩ desc d]) ∧
      lookupA s1.images (.Bundled name) = some ⟨⟨k⟩, desc⟩ ∧
      get_image lib s1 (.Bundled name) = (.ok ⟨⟨k⟩, desc⟩, s1, []) ∧
      ∃ s2, load_image lib s1 name data2 =
          (.ok (), s2, [Effect.AddImage ⟨k + 1⟩ desc2 d2]) ∧
        lookupA s2.images (.Bundled name) = some ⟨⟨k + 1⟩, desc2⟩ := by
  refine ⟨ImageLoader.mk (some (k + 1)) self.assets_path self.bundled_images
            (insertA self.images (.Bundled name) ⟨⟨k⟩, desc⟩)
            self.texture_descriptors,
          ?_, ?_, ?_, ?_⟩
  · simp [load_image, load_image_internal, create_image_resource,
          ImageLoader.render_api, hdec, hprep, hrender]
  · exact lookupA_insertA_self self.images (.Bundled name) ⟨⟨k⟩, desc⟩
  · unfold get_image get_image_internal
    rw [show lookupA
        (insertA self.images (.Bundled name) (⟨⟨k⟩, desc⟩ : ImageInfo))
        (.Bundled name) = some ⟨⟨k⟩, desc⟩ from
      lookupA_insertA_self self.images (.Bundled name) ⟨⟨k⟩, desc⟩]
  · refine ⟨ImageLoader.mk (some (k + 2)) self.assets_path self.bundled_images
              (insertA (insertA self.images (.Bundled name) ⟨⟨k⟩, desc⟩)
                (.Bundled name) ⟨⟨k + 1⟩, desc2⟩)
              self.texture_descriptors, ?_, ?_⟩
    · simp [load_image, load_image_internal, create_image_resource,
            ImageLoader.render_api, hdec2, hprep2, hrender]
    · exact lookupA_insertA_self
        (insertA self.images (.Bundled name) ⟨⟨k⟩, desc⟩)
        (.Bundled name) ⟨⟨k + 1⟩, desc2⟩

/-- C7 witness: registering 1x1 grayscale bytes twice under "n". -/
theorem claim7_witness :
    ∃ s1, load_image lib1 loader2 "n" [1] =
        (.ok (), s1, [Effect.AddImage ⟨0⟩ descL (ImageData.mk [7])]) ∧
      lookupA s1.images (.Bundled "n") = some ⟨⟨0⟩, descL⟩ ∧
      get_image lib1 s1 (.Bundled "n") = (.ok ⟨⟨0⟩, descL⟩, s1, []) ∧
      ∃ s2, load_image lib1 s1 "n" [2] =
          (.ok (), s2, [Effect.AddImage ⟨1⟩ descL (ImageData.mk [7])]) ∧
        lookupA s2.images (.Bundled "n") = some ⟨⟨1⟩, descL⟩ :=
  claim7_bundled_round_trip lib1 loader2 "n" [1] [2] lumaImage lumaImage
    (ImageData.mk [7]) (ImageData.mk [7]) descL descL 0
    (by rfl) (by rfl) (by rfl) (by rfl) (by rfl)

/-- C9.  Uninitialized-renderer fail-fast: with `render` absent, every
operation that reaches the renderer — an uncached `get_image` on either path
variant whose open and conversion succeed, a `load_image` whose decode and
conversion succeed, `create_image_resource`, and `update_texture` — panics
(`unwrap` on `None`) instead of proceeding. -/
theorem claim9_uninitialized_renderer (lib : ImageLibrary)
    (self : ImageLoader) (hr : self.render = none)
    (p rel name : String) (img imgA img2 : DynamicImage)
    (v vA v2 : ImageData × ImageDescriptor) (data : List Nat)
    (d : ImageData) (desc : ImageDescriptor) (key : ImageKey) (tid : Nat) :
    (lookupA self.images (.AbsolutePath p) = none →
      lib.openImage p = .ok img → prepare_image img = .ok v →
      (get_image lib self (.AbsolutePath p)).1 = .panic) ∧
    (lookupA self.images (.AssetPath rel) = none →
      lib.openImage (self.assets_path ++ "/" ++ rel) = .ok imgA →
      prepare_image imgA = .ok vA →
      (get_image lib self (.AssetPath rel)).1 = .panic) ∧
    (lib.load_from_memory data = .ok img2 → prepare_image img2 = .ok v2 →
      (load_image lib self name data).1 = .panic) ∧
    (create_image_resource self d desc).1 = .panic ∧
    (update_texture self key desc tid).1 = .panic := by
  obtain ⟨vd, vdesc⟩ := v
  obtain ⟨vdA, vdescA⟩ := vA
  obtain ⟨vd2, vdesc2⟩ := v2
  refine ⟨?_, ?_, ?_, ?_, ?_⟩
  · intro hc hopen hprep
    simp [get_image, get_image_internal, load_path, put_image,
          create_image_resource, ImageLoader.render_api, hc, hopen, hprep, hr]
  · intro hc hopen hprep
    simp [get_image, get_image_internal, load_path, put_image,
          create_image_resource, ImageLoader.render_api, hc, hopen, hprep, hr]
  · intro hdec hprep
    simp [load_image, load_image_internal, create_image_resource,
          ImageLoader.render_api, hdec, hprep, hr]
  · simp [create_image_resource, ImageLoader.render_api, hr]
  · simp [update_texture, ImageLoader.render_api, hr]

/-- C9 witness: a fresh (uninitialized) loader and an oracle whose opens and
decodes all succeed. -/
theorem claim9_witness :
    (get_image lib2 ImageLoader.new (.AbsolutePath "/a.png")).1 =
      Outcome.panic ∧
    (get_image lib2 ImageLoader.new (.AssetPath "b.png")).1 =
      Outcome.panic ∧
    (load_image lib2 ImageLoader.new "n" [1]).1 = Outcome.panic ∧
    (create_image_resource ImageLoader.new (ImageData.mk [7]) desc0).1 =
      Outcome.panic ∧
    (update_texture ImageLoader.new ⟨3⟩ desc0 11).1 = Outcome.panic := by
  have h := claim9_uninitialized_renderer lib2 ImageLoader.new (by rfl)
    "/a.png" "b.png" "n" lumaImage lumaImage lumaImage
    (ImageData.mk [7], descL) (ImageData.mk [7], descL)
    (ImageData.mk [7], descL) [1] (ImageData.mk [7]) desc0 ⟨3⟩ 11
  exact ⟨h.1 (by rfl) (by rfl) (by rfl), h.2.1 (by rfl) (by rfl) (by rfl),
         h.2.2.1 (by rfl) (by rfl), h.2.2.2.1, h.2.2.2.2⟩

end Resources
